import Mathlib

/-
Shallow embedding of the key-pool dispatcher, self-check gate, analysis
cursor and response parser of the prezent_ai repository
(src/services/geminiService.ts, src/App.tsx, src/utils/planParser.ts).

Modelling conventions:
* JS numbers that hold timestamps and HTTP statuses are Nat.
* `undefined` fields are Option.none; JS string `includes` is substring
  search on the character list; `toLowerCase` is character-wise lowering.
* Remote responses are an oracle parameter (`String -> AttemptOutcome`,
  indexed by key value): the network itself is not repository code.
* `Date.now()` is modelled as a single constant `now` for the duration of
  one dispatch (the code re-reads the clock, but no claim depends on the
  clock advancing during a dispatch).
* Each key value is attempted at most once per dispatch; pools are lists
  in stored order, and lookups mirror `keyPool.find(k => k.value === v)`.
-/

namespace PrezentAI

/-- Key status enum from types.ts plus the `config_error` status that
geminiService.ts assigns. -/
inductive KeyStatus where
  | active
  | exhausted
  | invalid
  | unknown
  | rate_limited
  | permission_denied
  | config_error
deriving DecidableEq

/-- The ApiKey record from types.ts. -/
structure ApiKey where
  value : String
  status : KeyStatus
  lastChecked : Option Nat := none
  resetTime : Option Nat := none
  isPinned : Bool := false
  projectId : Option String := none
  lastError : Option String := none
deriving DecidableEq

/-- KEY_COOLDOWN_PERIOD = 24 * 60 * 60 * 1000 (geminiService.ts). -/
def KEY_COOLDOWN_PERIOD : Nat := 24 * 60 * 60 * 1000

/-- SHORT_COOLDOWN_PERIOD = 5 * 60 * 1000 (geminiService.ts). -/
def SHORT_COOLDOWN_PERIOD : Nat := 5 * 60 * 1000

/-- The first list starts the second one (character-list helper for the
JS substring test). -/
def charsLeadWith : List Char → List Char → Bool
  | [], _ => true
  | _ :: _, [] => false
  | a :: as, b :: bs => a == b && charsLeadWith as bs

/-- The first list occurs contiguously inside the second one. -/
def charsContain (needle : List Char) : List Char → Bool
  | [] => charsLeadWith needle []
  | b :: bs => charsLeadWith needle (b :: bs) || charsContain needle bs

/-- JS `toLowerCase`, modelled as character-wise ASCII lowering (every
string the classification inspects for its markers is ASCII). -/
def toLowerString (s : String) : String :=
  String.mk (s.toList.map Char.toLower)

/-- JS substring test `haystack.includes(needle)`. -/
def containsSubstr (haystack needle : String) : Bool :=
  charsContain needle.toList haystack.toList

/-- The cooldown test `k.resetTime && k.resetTime > now` (a missing
resetTime is falsy, so it means no cooldown). -/
def isOnCooldown (now : Nat) (k : ApiKey) : Bool :=
  match k.resetTime with
  | some t => decide (t > now)
  | none => false

/-- The status test of getAvailableKeys in makeGoogleApiCall:
`k.status === 'invalid' || k.status === 'config_error' || k.status === 'unknown'`. -/
def isBadStatusForDispatch (s : KeyStatus) : Bool :=
  s = KeyStatus.invalid || s = KeyStatus.config_error || s = KeyStatus.unknown

/-- One key passes the availability filter of getAvailableKeys. -/
def isAvailableKey (now : Nat) (k : ApiKey) : Bool :=
  !(isBadStatusForDispatch k.status) && !(isOnCooldown now k)

/-- getOrderedKeys: the pinned key (if any) first, then every non-pinned
key in stored order. -/
def getOrderedKeys (pool : List ApiKey) : List ApiKey :=
  let otherKeys := pool.filter (fun k => !k.isPinned)
  match pool.find? (fun k => k.isPinned) with
  | some pinnedKey => pinnedKey :: otherKeys
  | none => otherKeys

/-- getAvailableKeys: the ordered keys that pass the availability filter. -/
def getAvailableKeys (now : Nat) (pool : List ApiKey) : List ApiKey :=
  (getOrderedKeys pool).filter (isAvailableKey now)

/-- The `data.error` object of a Gemini REST response. -/
structure ApiErrorInfo where
  status : Option String := none
  message : Option String := none
deriving DecidableEq

/-- What one attempted network call produces: a parsed HTTP response
(with optional `data.error` and a `data.candidates` presence flag), or a
thrown network error (fetch rejection). -/
inductive AttemptOutcome where
  | response (httpStatus : Nat) (hasCandidates : Bool) (error : Option ApiErrorInfo)
  | networkError (message : String)
deriving DecidableEq

/-- fetch `response.ok`: HTTP status in [200, 300). -/
def responseOk (httpStatus : Nat) : Bool :=
  decide (200 ≤ httpStatus) && decide (httpStatus < 300)

/-- Destructuring `const { message = 'Unknown error', status } = data.error || {}`:
the message with its default. -/
def errMessageOf (e : Option ApiErrorInfo) : String :=
  match e with
  | some info => info.message.getD "Unknown error"
  | none => "Unknown error"

/-- The `status` field of `data.error || {}`. -/
def errStatusOf (e : Option ApiErrorInfo) : Option String :=
  e.bind (fun info => info.status)

/-- The five classification outcomes of a failed response inside
makeGoogleApiCall. -/
inductive FailureClass where
  | configError
  | invalidKey
  | quota
  | serverError
  | unknownError
deriving DecidableEq

/-- The failure classification of makeGoogleApiCall (geminiService.ts
lines 707-740): isConfigError branch first, then isInvalid, then isQuota,
then isServerError, else unknown. -/
def classifyFailure (httpStatus : Nat) (errStatus : Option String) (message : String) :
    FailureClass :=
  let lowerMessage := toLowerString message
  let isQuota := httpStatus == 429 || errStatus == some "RESOURCE_EXHAUSTED" ||
    containsSubstr lowerMessage "quota"
  let isInvalid := containsSubstr lowerMessage "api key not valid" ||
    containsSubstr lowerMessage "invalid_api_key" ||
    httpStatus == 403 || errStatus == some "PERMISSION_DENIED"
  let isConfigError := httpStatus == 404 || errStatus == some "NOT_FOUND"
  let isServerError := decide (500 ≤ httpStatus) && decide (httpStatus < 600)
  if isConfigError then FailureClass.configError
  else if isInvalid then FailureClass.invalidKey
  else if isQuota then FailureClass.quota
  else if isServerError then FailureClass.serverError
  else FailureClass.unknownError

/-- The per-class key update of the failure branch of makeGoogleApiCall:
lastError is recorded, then status and resetTime are set by class. -/
def applyFailureUpdate (now : Nat) (message : String) (c : FailureClass) (k : ApiKey) :
    ApiKey :=
  let k1 : ApiKey := { k with lastError := some message }
  match c with
  | FailureClass.configError => { k1 with status := KeyStatus.config_error, resetTime := none }
  | FailureClass.invalidKey => { k1 with status := KeyStatus.invalid, resetTime := none }
  | FailureClass.quota =>
      { k1 with status := KeyStatus.exhausted, resetTime := some (now + KEY_COOLDOWN_PERIOD) }
  | FailureClass.serverError =>
      { k1 with status := KeyStatus.rate_limited, resetTime := some (now + SHORT_COOLDOWN_PERIOD) }
  | FailureClass.unknownError => { k1 with status := KeyStatus.unknown, resetTime := none }

/-- Replace the first key of the pool with the given value, mirroring the
mutation of `keyPool.find(k => k.value === currentKey)`. -/
def updateKeyInPool (pool : List ApiKey) (v : String) (f : ApiKey → ApiKey) : List ApiKey :=
  match pool with
  | [] => []
  | k :: rest => if k.value == v then f k :: rest else k :: updateKeyInPool rest v f

/-- How one dispatch ends: a successful response with the used key, a
thrown ConfigError (model, endpoint), or a thrown AllKeysFailedError with
the pool snapshot. -/
inductive DispatchResult where
  | success (usedKey : String)
  | configError (model : String) (endpoint : String)
  | allKeysFailed (failedKeys : List ApiKey)
deriving DecidableEq

/-- The key-rotation loop of makeGoogleApiCall: walk the ordered keys,
skip unusable ones, attempt the rest via the oracle, update the pool and
either return, abort with ConfigError, or continue. Returns the result,
the final pool, and the values of the keys actually attempted, in order. -/
def dispatchLoop (model endpoint : String) (now : Nat) (oracle : String → AttemptOutcome) :
    List ApiKey → List ApiKey → DispatchResult × List ApiKey × List String
  | [], pool => (DispatchResult.allKeysFailed pool, pool, [])
  | k :: rest, pool =>
    match pool.find? (fun p => p.value == k.value) with
    | none => dispatchLoop model endpoint now oracle rest pool
    | some keyState =>
      if isBadStatusForDispatch keyState.status || isOnCooldown now keyState then
        dispatchLoop model endpoint now oracle rest pool
      else
        match oracle k.value with
        | AttemptOutcome.networkError msg =>
          let pool1 := updateKeyInPool pool k.value
            (fun p => { p with status := KeyStatus.unknown, lastError := some msg })
          let r := dispatchLoop model endpoint now oracle rest pool1
          (r.1, r.2.1, k.value :: r.2.2)
        | AttemptOutcome.response httpStatus _hasCandidates err =>
          if err.isSome || !(responseOk httpStatus) then
            let message := errMessageOf err
            let cls := classifyFailure httpStatus (errStatusOf err) message
            let pool1 := updateKeyInPool pool k.value (applyFailureUpdate now message cls)
            if cls = FailureClass.configError then
              (DispatchResult.configError model endpoint, pool1, [k.value])
            else
              let r := dispatchLoop model endpoint now oracle rest pool1
              (r.1, r.2.1, k.value :: r.2.2)
          else
            let pool1 := updateKeyInPool pool k.value
              (fun p => { p with status := KeyStatus.active, lastError := none, resetTime := none })
            (DispatchResult.success k.value, pool1, [k.value])

/-- makeGoogleApiCall: fail fast with AllKeysFailedError when the pool is
non-empty but no key is available, otherwise run the rotation loop. -/
def makeGoogleApiCall (model endpoint : String) (now : Nat) (oracle : String → AttemptOutcome)
    (pool : List ApiKey) : DispatchResult × List ApiKey × List String :=
  let allKeysInOrder := getOrderedKeys pool
  let keysAvailableAtStart := allKeysInOrder.filter (isAvailableKey now)
  if keysAvailableAtStart.isEmpty && !allKeysInOrder.isEmpty then
    (DispatchResult.allKeysFailed pool, pool, [])
  else
    dispatchLoop model endpoint now oracle allKeysInOrder pool

/-- An attempt outcome that the failure branch classifies as a
configuration error (the response enters the error branch and its
classification is configError). -/
def isConfigOutcome : AttemptOutcome → Bool
  | AttemptOutcome.response httpStatus _ err =>
      (err.isSome || !(responseOk httpStatus)) &&
      (classifyFailure httpStatus (errStatusOf err) (errMessageOf err) ==
        FailureClass.configError)
  | AttemptOutcome.networkError _ => false

/-- Last-binding-wins lookup, mirroring
`new Map(keyPool.map(k => [k.value, k])).get(v)`. -/
def liveKeyLookup (pool : List ApiKey) (v : String) : Option ApiKey :=
  pool.reverse.find? (fun k => k.value == v)

/-- initializeApiKeys (geminiService.ts lines 526-550): replace the pool
with the settings list, keeping the live health state (status,
lastChecked, resetTime, lastError) of every key whose value already
exists in the current pool. -/
def initializeApiKeys (pool keysFromSettings : List ApiKey) : List ApiKey :=
  keysFromSettings.map fun keyFromSettings =>
    match liveKeyLookup pool keyFromSettings.value with
    | some liveKeyData =>
        { keyFromSettings with
          status := liveKeyData.status
          lastChecked := liveKeyData.lastChecked
          resetTime := liveKeyData.resetTime
          lastError := liveKeyData.lastError }
    | none => keyFromSettings

/-- checkApiKey (geminiService.ts lines 1014-1072) as a function of the
probe outcome: `.error (model, endpoint)` models a thrown ConfigError,
`.ok s` a returned status. A network error returns `unknown`. -/
def checkApiKey (model endpoint : String) (outcome : AttemptOutcome) :
    Except (String × String) KeyStatus :=
  match outcome with
  | AttemptOutcome.networkError _ => Except.ok KeyStatus.unknown
  | AttemptOutcome.response httpStatus hasCandidates err =>
    if responseOk httpStatus && hasCandidates then Except.ok KeyStatus.active
    else
      match err with
      | some info =>
        let message := info.message.getD ""
        let lowerMessage := toLowerString message
        let isQuota := httpStatus == 429 || info.status == some "RESOURCE_EXHAUSTED" ||
          containsSubstr lowerMessage "quota"
        let isInvalid := containsSubstr lowerMessage "api key not valid" ||
          containsSubstr lowerMessage "invalid_api_key" ||
          httpStatus == 403 || info.status == some "PERMISSION_DENIED"
        let isConfigError := httpStatus == 404 || info.status == some "NOT_FOUND"
        if isConfigError then Except.error (model, endpoint)
        else if isInvalid then Except.ok KeyStatus.invalid
        else if isQuota then Except.ok KeyStatus.exhausted
        else Except.ok KeyStatus.unknown
      | none => Except.ok KeyStatus.unknown

/-- The eligibility test of performSelfCheck:
`k.status !== 'invalid' && k.status !== 'config_error' && (!k.resetTime || k.resetTime <= now)`. -/
def selfCheckEligible (now : Nat) (k : ApiKey) : Bool :=
  !(k.status = KeyStatus.invalid || k.status = KeyStatus.config_error) &&
  !(isOnCooldown now k)

/-- How performSelfCheck ends for its caller. -/
inductive SelfCheckResult where
  | proceed
  | configErrorHalt (model : String) (endpoint : String)
  | allKeysFailed (failedKeys : List ApiKey)
deriving DecidableEq

/-- performSelfCheck (geminiService.ts lines 781-801): probe the first
eligible key; rethrow a ConfigError, swallow every other probe outcome.
The second component lists the values of the keys actually probed. -/
def performSelfCheck (model endpoint : String) (now : Nat)
    (probe : String → AttemptOutcome) (pool : List ApiKey) :
    SelfCheckResult × List String :=
  match pool.find? (selfCheckEligible now) with
  | none =>
    if pool.isEmpty then (SelfCheckResult.proceed, [])
    else (SelfCheckResult.allKeysFailed pool, [])
  | some firstAvailableKey =>
    match checkApiKey model endpoint (probe firstAvailableKey.value) with
    | Except.error (m, e) => (SelfCheckResult.configErrorHalt m e, [firstAvailableKey.value])
    | Except.ok _ => (SelfCheckResult.proceed, [firstAvailableKey.value])

/-- JSON values as produced by a successful `JSON.parse` (no undefined). -/
inductive Json where
  | null
  | bool (b : Bool)
  | num (n : Int)
  | str (s : String)
  | arr (items : List Json)
  | obj (fields : List (String × Json))

/-- JS property access `item.name` on a parsed JSON value: `none` is
undefined (absent field, or access on a non-object primitive). Access on
`null` throws in JS; `parseSlidesFromJson` treats that separately. -/
def jsField (item : Json) (name : String) : Option Json :=
  match item with
  | Json.obj fields => (fields.find? (fun f => f.1 == name)).map (fun f => f.2)
  | _ => none

/-- JS truthiness of a field value (undefined, null, false, 0 and the
empty string are falsy). -/
def jsTruthy : Option Json → Bool
  | none => false
  | some Json.null => false
  | some (Json.bool b) => b
  | some (Json.num n) => n != 0
  | some (Json.str s) => s != ""
  | some (Json.arr _) => true
  | some (Json.obj _) => true

/-- JS `v || d`. -/
def jsOr (v : Option Json) (d : Json) : Json :=
  match v with
  | some j => if jsTruthy (some j) then j else d
  | none => d

/-- JS nullish coalescing `v ?? d` (null or undefined selects d). -/
def jsNullishOr (v : Option Json) (d : Json) : Json :=
  match v with
  | some Json.null => d
  | some j => j
  | none => d

/-- A Slide as built by the parsers; field values keep their JSON shape
because the mapping copies whatever JSON.parse produced. -/
structure Slide where
  title : Json
  script : Json
  imageId : Json
  speaker : Json
  textOverlay : Json
  podcastScript : Json
  needsImage : Json
  suggestions : Option Json

/-- The per-item Slide construction of parseSlidesFromJson
(planParser.ts lines 63-75). -/
def mapJsonItemToSlide (item : Json) : Slide :=
  { title := jsOr (jsField item "title") (Json.str "Без названия")
    script := jsOr (jsField item "script") (Json.str "Нет текста.")
    imageId := jsOr (jsField item "imageId") Json.null
    textOverlay := jsOr (jsField item "textOverlay") (Json.str "")
    podcastScript := jsOr (jsField item "podcastScript") (Json.str "")
    needsImage := jsNullishOr (jsField item "needsImage")
      (Json.bool (!(jsTruthy (jsField item "imageId"))))
    suggestions := if jsTruthy (jsField item "suggestions")
      then jsField item "suggestions" else none
    speaker := jsNullishOr (jsField item "speaker") (Json.num 0) }

/-- parseSlidesFromMarkdown (planParser.ts lines 9-47). The guard is
repository logic; the regex-driven section scanner after the guard runs
on the platform RegExp engine and is abstracted as `scanSections`. -/
def parseSlidesFromMarkdown (scanSections : String → List Slide)
    (markdownText : String) : List Slide :=
  if markdownText == "" || !(containsSubstr markdownText "### Слайд") then []
  else scanSections markdownText

/-- The JS mapping throws a TypeError exactly on property access of a
null item (JSON.parse never yields undefined). -/
def isJsonNull : Json → Bool
  | Json.null => true
  | _ => false

/-- parseSlidesFromJson (planParser.ts lines 55-81). `jsonParse` is the
platform `JSON.parse` (`none` models a thrown SyntaxError). A non-array
parse gives []; a null array item makes the JS mapping throw, which the
catch turns into the markdown fallback, as does a parse failure. -/
def parseSlidesFromJson (jsonParse : String → Option Json)
    (scanSections : String → List Slide) (jsonText : String) : List Slide :=
  match jsonParse jsonText with
  | none => parseSlidesFromMarkdown scanSections jsonText
  | some parsed =>
    match parsed with
    | Json.arr items =>
      if items.any isJsonNull then
        parseSlidesFromMarkdown scanSections jsonText
      else
        items.map mapJsonItemToSlide
    | _ => []

/-- AnalysisCursor status (App.tsx). -/
inductive CursorStatus where
  | idle
  | running
  | paused
  | done
deriving DecidableEq

/-- The slice of App state that the analysis effect reads and writes:
the AnalysisCursor (imagesToAnalyze, currentIndex, status), the
per-image descriptions of the images under analysis (aligned with
imagesToAnalyze; `none` means not yet analyzed), the evolving story
summary, the parsed slides, and whether the app moved to the chat view. -/
structure AnalysisState where
  imagesToAnalyze : List String
  currentIndex : Nat
  status : CursorStatus
  descriptions : List (Option String)
  story : String
  slides : List Slide
  appChat : Bool

/-- What one fired effect step produces: a successful analyzeNextFrame
result, a successful generateStoryboard synthesis (already parsed), or a
thrown error from the dispatch below. -/
inductive AnalysisStepOutcome where
  | analyzeOk (imageDescription : String) (updatedStory : String)
  | synthOk (parsedSlides : List Slide)
  | failure

/-- startAnalysis (App.tsx lines 391-396): fresh cursor at index 0,
running, over freshly uploaded images (which carry no description yet),
with the evolving story summary cleared. -/
def startAnalysis (imagesToAnalyze : List String) : AnalysisState :=
  { imagesToAnalyze := imagesToAnalyze
    currentIndex := 0
    status := CursorStatus.running
    descriptions := List.replicate imagesToAnalyze.length none
    story := ""
    slides := []
    appChat := false }

/-- resumeAnalysis / retrySynth (App.tsx lines 398-401 and 422-425):
set the cursor status back to running, leaving every other field alone. -/
def resumeAnalysis (st : AnalysisState) : AnalysisState :=
  { st with status := CursorStatus.running }

/-- One firing of the analysis effect (App.tsx lines 403-445): when the
cursor is running, either analyze the image at currentIndex (success
records its description and the updated story and advances the index;
failure pauses in place), or, past the last image, synthesize the final
storyboard (success stores the slides, enters chat and finishes the
cursor; failure pauses in place). -/
def analysisStep (st : AnalysisState) (outcome : AnalysisStepOutcome) : AnalysisState :=
  if st.status = CursorStatus.running then
    if st.currentIndex < st.imagesToAnalyze.length then
      match outcome with
      | AnalysisStepOutcome.analyzeOk imageDescription updatedStory =>
        { st with
          descriptions := st.descriptions.set st.currentIndex (some imageDescription)
          story := updatedStory
          currentIndex := st.currentIndex + 1 }
      | _ => { st with status := CursorStatus.paused }
    else
      match outcome with
      | AnalysisStepOutcome.synthOk parsedSlides =>
        { st with
          slides := parsedSlides
          appChat := true
          imagesToAnalyze := []
          currentIndex := 0
          status := CursorStatus.done }
      | _ => { st with status := CursorStatus.paused }
  else st

/-- A straight-line run of the analysis effect over a list of step
outcomes. -/
def runAnalysis (st : AnalysisState) (outcomes : List AnalysisStepOutcome) : AnalysisState :=
  outcomes.foldl analysisStep st

/-- The availability filter of one key, restated as a proposition. -/
theorem isAvailableKey_eq_true_iff (now : Nat) (k : ApiKey) :
    isAvailableKey now k = true ↔
      (k.status ≠ KeyStatus.invalid ∧ k.status ≠ KeyStatus.config_error ∧
       k.status ≠ KeyStatus.unknown) ∧
      (∀ t, k.resetTime = some t → t ≤ now) := by
  unfold isAvailableKey isBadStatusForDispatch isOnCooldown
  cases hrt : k.resetTime with
  | none =>
    simp only [Bool.and_eq_true, Bool.not_eq_true', Bool.or_eq_false_iff,
      decide_eq_false_iff_not, Bool.not_true, Bool.not_false]
    constructor
    · rintro ⟨⟨⟨h1, h2⟩, h3⟩, -⟩
      exact ⟨⟨h1, h2, h3⟩, fun t ht => by cases ht⟩
    · rintro ⟨⟨h1, h2, h3⟩, -⟩
      exact ⟨⟨⟨h1, h2⟩, h3⟩, trivial⟩
  | some t =>
    simp only [Bool.and_eq_true, Bool.not_eq_true', Bool.or_eq_false_iff,
      decide_eq_false_iff_not, Nat.not_lt]
    constructor
    · rintro ⟨⟨⟨h1, h2⟩, h3⟩, h4⟩
      refine ⟨⟨h1, h2, h3⟩, fun u hu => ?_⟩
      cases hu
      exact h4
    · rintro ⟨⟨h1, h2, h3⟩, h4⟩
      exact ⟨⟨⟨h1, h2⟩, h3⟩, h4 t rfl⟩

/-- C5 (corrected), counterexample: a key of status `unknown` with no
cooldown satisfies the eligibility predicate stated by the claim (status
not invalid, not config_error, no pending resetTime) and is in the pool,
yet `getAvailableKeys` excludes it, so the claimed characterisation of
the eligible set is false. -/
theorem eligible_excludes_unknown_cex :
    (ApiKey.mk "k1" KeyStatus.unknown none none false none none).status ≠
        KeyStatus.invalid ∧
    (ApiKey.mk "k1" KeyStatus.unknown none none false none none).status ≠
        KeyStatus.config_error ∧
    (ApiKey.mk "k1" KeyStatus.unknown none none false none none).resetTime = none ∧
    ApiKey.mk "k1" KeyStatus.unknown none none false none none ∈
      getOrderedKeys [ApiKey.mk "k1" KeyStatus.unknown none none false none none] ∧
    getAvailableKeys 0 [ApiKey.mk "k1" KeyStatus.unknown none none false none none] = [] := by
  refine ⟨by decide, by decide, rfl, ?_, by decide⟩
  decide

/-- C5 (amended): membership in the eligible set, characterised exactly.
A key is eligible now iff it appears in the attempt ordering, its status
is none of invalid, config_error or unknown, and any resetTime it has is
not in the future. -/
theorem mem_getAvailableKeys_iff (now : Nat) (pool : List ApiKey) (k : ApiKey) :
    k ∈ getAvailableKeys now pool ↔
      k ∈ getOrderedKeys pool ∧
      ((k.status ≠ KeyStatus.invalid ∧ k.status ≠ KeyStatus.config_error ∧
        k.status ≠ KeyStatus.unknown) ∧
       (∀ t, k.resetTime = some t → t ≤ now)) := by
  unfold getAvailableKeys
  rw [List.mem_filter]
  exact and_congr_right fun _ => isAvailableKey_eq_true_iff now k

/-- The attempt ordering never empties a non-empty pool. -/
theorem getOrderedKeys_ne_nil (pool : List ApiKey) (h : pool ≠ []) :
    getOrderedKeys pool ≠ [] := by
  unfold getOrderedKeys
  cases hf : pool.find? (fun k => k.isPinned) with
  | some p => simp
  | none =>
    have hall : ∀ a ∈ pool, (!a.isPinned) = true := by
      intro a ha
      have := List.find?_eq_none.mp hf a ha
      simpa using this
    rw [List.filter_eq_self.mpr hall]
    simpa using h

/-- C6: a dispatch whose eligible set is empty while the pool is not
fails at once with AllKeysFailedError carrying the full pool snapshot,
attempting no key. -/
theorem empty_eligible_fails_fast (model endpoint : String) (now : Nat)
    (oracle : String → AttemptOutcome) (pool : List ApiKey)
    (hne : pool ≠ []) (helig : getAvailableKeys now pool = []) :
    makeGoogleApiCall model endpoint now oracle pool =
      (DispatchResult.allKeysFailed pool, pool, []) := by
  unfold makeGoogleApiCall
  have h1 : (getOrderedKeys pool).filter (isAvailableKey now) = [] := helig
  have h2 : getOrderedKeys pool ≠ [] := getOrderedKeys_ne_nil pool hne
  simp [h1, h2]

/-- C6 witness: a pool holding one invalid key dispatches to an
immediate AllKeysFailedError without any attempt. -/
theorem empty_eligible_fails_fast_witness :
    makeGoogleApiCall "gemini-2.5-flash" "generativelanguage.googleapis.com/v1beta" 0
      (fun _ => AttemptOutcome.networkError "never reached")
      [ApiKey.mk "aaaa" KeyStatus.invalid none none false none none] =
      (DispatchResult.allKeysFailed
        [ApiKey.mk "aaaa" KeyStatus.invalid none none false none none],
       [ApiKey.mk "aaaa" KeyStatus.invalid none none false none none], []) :=
  empty_eligible_fails_fast "gemini-2.5-flash" "generativelanguage.googleapis.com/v1beta" 0
    (fun _ => AttemptOutcome.networkError "never reached")
    [ApiKey.mk "aaaa" KeyStatus.invalid none none false none none]
    (by decide) (by decide)

/-- C10: failure classification applies a fixed priority order —
not-found/config_error first, then invalid credential (HTTP 403,
PERMISSION_DENIED or an invalid-key message), then quota (HTTP 429,
RESOURCE_EXHAUSTED or a message mentioning quota), then server 5xx,
otherwise unknown; a 404 whose message also mentions quota is classified
config_error, and such an attempt aborts the dispatch with the key left
without any cooldown (resetTime cleared) rather than cooled down. -/
theorem classifyFailure_priority (httpStatus : Nat) (errStatus : Option String)
    (message : String) :
    (classifyFailure httpStatus errStatus message =
      if httpStatus = 404 ∨ errStatus = some "NOT_FOUND" then
        FailureClass.configError
      else if containsSubstr (toLowerString message) "api key not valid" = true ∨
          containsSubstr (toLowerString message) "invalid_api_key" = true ∨
          httpStatus = 403 ∨ errStatus = some "PERMISSION_DENIED" then
        FailureClass.invalidKey
      else if httpStatus = 429 ∨ errStatus = some "RESOURCE_EXHAUSTED" ∨
          containsSubstr (toLowerString message) "quota" = true then
        FailureClass.quota
      else if 500 ≤ httpStatus ∧ httpStatus < 600 then
        FailureClass.serverError
      else
        FailureClass.unknownError) ∧
    classifyFailure 404 none "You exceeded your quota" = FailureClass.configError ∧
    makeGoogleApiCall "gemini-2.5-flash" "generativelanguage.googleapis.com/v1beta" 1000
      (fun _ => AttemptOutcome.response 404 false
        (some (ApiErrorInfo.mk none (some "You exceeded your quota"))))
      [ApiKey.mk "kkkk" KeyStatus.active none none false none none] =
      (DispatchResult.configError "gemini-2.5-flash"
        "generativelanguage.googleapis.com/v1beta",
       [ApiKey.mk "kkkk" KeyStatus.config_error none none false none
         (some "You exceeded your quota")],
       ["kkkk"]) := by
  refine ⟨?_, by decide, by decide⟩
  simp only [classifyFailure, Bool.or_eq_true, beq_iff_eq, Bool.and_eq_true,
    decide_eq_true_eq, or_assoc]

/-- C8: the parser contract. `parseSlidesFromJson` is a total function
of the parse outcome (it never throws); given the documented platform
behaviour of JSON.parse on the three probe inputs, parsing "[]" gives
the empty slide list, parsing one title/script object gives exactly one
slide with title "A", script "B", null imageId, needsImage true and
speaker 0, and a non-JSON input without the slide-heading marker falls
back to the markdown scanner, whose guard returns the empty list. -/
theorem parse_slides_contract (jsonParse : String → Option Json)
    (scanSections : String → List Slide)
    (h1 : jsonParse "[]" = some (Json.arr []))
    (h2 : jsonParse "[\x7b\"title\":\"A\",\"script\":\"B\"\x7d]" =
      some (Json.arr [Json.obj [("title", Json.str "A"), ("script", Json.str "B")]]))
    (h3 : jsonParse "not json" = none) :
    parseSlidesFromJson jsonParse scanSections "[]" = [] ∧
    parseSlidesFromJson jsonParse scanSections "[\x7b\"title\":\"A\",\"script\":\"B\"\x7d]" =
      [Slide.mk (Json.str "A") (Json.str "B") Json.null (Json.num 0) (Json.str "")
        (Json.str "") (Json.bool true) none] ∧
    parseSlidesFromJson jsonParse scanSections "not json" = [] := by
  refine ⟨?_, ?_, ?_⟩
  · unfold parseSlidesFromJson
    rw [h1]
    rfl
  · unfold parseSlidesFromJson
    rw [h2]
    rfl
  · unfold parseSlidesFromJson
    rw [h3]
    rfl

/-- C8 witness: the contract instantiated at an explicit JSON.parse
table and an empty markdown scanner. -/
theorem parse_slides_contract_witness :
    parseSlidesFromJson
      (fun s =>
        if s == "[]" then some (Json.arr [])
        else if s == "[\x7b\"title\":\"A\",\"script\":\"B\"\x7d]" then
          some (Json.arr [Json.obj [("title", Json.str "A"), ("script", Json.str "B")]])
        else none)
      (fun _ => []) "[]" = [] ∧
    parseSlidesFromJson
      (fun s =>
        if s == "[]" then some (Json.arr [])
        else if s == "[\x7b\"title\":\"A\",\"script\":\"B\"\x7d]" then
          some (Json.arr [Json.obj [("title", Json.str "A"), ("script", Json.str "B")]])
        else none)
      (fun _ => []) "[\x7b\"title\":\"A\",\"script\":\"B\"\x7d]" =
      [Slide.mk (Json.str "A") (Json.str "B") Json.null (Json.num 0) (Json.str "")
        (Json.str "") (Json.bool true) none] ∧
    parseSlidesFromJson
      (fun s =>
        if s == "[]" then some (Json.arr [])
        else if s == "[\x7b\"title\":\"A\",\"script\":\"B\"\x7d]" then
          some (Json.arr [Json.obj [("title", Json.str "A"), ("script", Json.str "B")]])
        else none)
      (fun _ => []) "not json" = [] :=
  parse_slides_contract _ _ (by rfl) (by rfl) (by rfl)

/-- C7: initializeApiKeys keeps exactly the input keys in input order
(same length, and at every index the produced key carries the input
value, pin flag and project id), while a key whose value already lives
in the pool keeps the pool entry status, resetTime, lastChecked and
lastError (merge by value); a key whose value is new is taken verbatim.
Reordering a value-equal list therefore never resets health state. -/
theorem initializeApiKeys_merge_spec (pool ks : List ApiKey) (p src : ApiKey) (i : Nat)
    (hnd : (pool.map ApiKey.value).Nodup)
    (hsrc : ks[i]? = some src) :
    (initializeApiKeys pool ks).length = ks.length ∧
    ((initializeApiKeys pool ks)[i]?).map ApiKey.value = some src.value ∧
    ((initializeApiKeys pool ks)[i]?).map ApiKey.isPinned = some src.isPinned ∧
    ((initializeApiKeys pool ks)[i]?).map ApiKey.projectId = some src.projectId ∧
    (p ∈ pool → p.value = src.value →
      ((initializeApiKeys pool ks)[i]?).map ApiKey.status = some p.status ∧
      ((initializeApiKeys pool ks)[i]?).map ApiKey.resetTime = some p.resetTime ∧
      ((initializeApiKeys pool ks)[i]?).map ApiKey.lastChecked = some p.lastChecked ∧
      ((initializeApiKeys pool ks)[i]?).map ApiKey.lastError = some p.lastError) ∧
    (liveKeyLookup pool src.value = none →
      (initializeApiKeys pool ks)[i]? = some src) := by
  have hlen : (initializeApiKeys pool ks).length = ks.length := by
    unfold initializeApiKeys
    exact List.length_map ks _
  have hmap : (initializeApiKeys pool ks)[i]? =
      (ks[i]?).map (fun keyFromSettings =>
        match liveKeyLookup pool keyFromSettings.value with
        | some liveKeyData =>
            { keyFromSettings with
              status := liveKeyData.status
              lastChecked := liveKeyData.lastChecked
              resetTime := liveKeyData.resetTime
              lastError := liveKeyData.lastError }
        | none => keyFromSettings) := by
    unfold initializeApiKeys
    exact List.getElem?_map _ ks i
  rw [hmap, hsrc]
  cases hlk : liveKeyLookup pool src.value with
  | none =>
    have hnomatch : ∀ q ∈ pool, q.value ≠ src.value := by
      intro q hq hqv
      have := List.find?_eq_none.mp hlk q (List.mem_reverse.mpr hq)
      simp [hqv] at this
    refine ⟨hlen, ?_, ?_, ?_, ?_, ?_⟩
    · simp [hlk]
    · simp [hlk]
    · simp [hlk]
    · intro hp hpv
      exact absurd hpv (hnomatch p hp)
    · intro _
      simp [hlk]
  | some live =>
    have hlivemem : live ∈ pool := List.mem_reverse.mp (List.mem_of_find?_eq_some hlk)
    have hlivev : live.value = src.value := by
      have := List.find?_some hlk
      simpa using this
    refine ⟨hlen, ?_, ?_, ?_, ?_, ?_⟩
    · simp [hlk]
    · simp [hlk]
    · simp [hlk]
    · intro hp hpv
      have hpeq : p = live :=
        List.inj_on_of_nodup_map hnd hp hlivemem (by rw [hpv, hlivev])
      subst hpeq
      refine ⟨?_, ?_, ?_, ?_⟩ <;> simp [hlk]
    · intro hcontra
      cases hcontra

/-- C7 witness: re-initializing with the two keys in reversed order
keeps the exhausted status, resetTime, lastChecked and lastError of the
key whose value was already pooled. -/
theorem initializeApiKeys_merge_spec_witness :
    (initializeApiKeys
        [ApiKey.mk "a" KeyStatus.exhausted (some 1) (some 5) false none (some "quota"),
         ApiKey.mk "b" KeyStatus.active none none false none none]
        [ApiKey.mk "b" KeyStatus.unknown none none false none none,
         ApiKey.mk "a" KeyStatus.unknown none none false none none]).length = 2 ∧
    ((initializeApiKeys
        [ApiKey.mk "a" KeyStatus.exhausted (some 1) (some 5) false none (some "quota"),
         ApiKey.mk "b" KeyStatus.active none none false none none]
        [ApiKey.mk "b" KeyStatus.unknown none none false none none,
         ApiKey.mk "a" KeyStatus.unknown none none false none none])[1]?).map
      ApiKey.status = some KeyStatus.exhausted ∧
    ((initializeApiKeys
        [ApiKey.mk "a" KeyStatus.exhausted (some 1) (some 5) false none (some "quota"),
         ApiKey.mk "b" KeyStatus.active none none false none none]
        [ApiKey.mk "b" KeyStatus.unknown none none false none none,
         ApiKey.mk "a" KeyStatus.unknown none none false none none])[1]?).map
      ApiKey.resetTime = some (some 5) := by
  have h := initializeApiKeys_merge_spec
    [ApiKey.mk "a" KeyStatus.exhausted (some 1) (some 5) false none (some "quota"),
     ApiKey.mk "b" KeyStatus.active none none false none none]
    [ApiKey.mk "b" KeyStatus.unknown none none false none none,
     ApiKey.mk "a" KeyStatus.unknown none none false none none]
    (ApiKey.mk "a" KeyStatus.exhausted (some 1) (some 5) false none (some "quota"))
    (ApiKey.mk "a" KeyStatus.unknown none none false none none)
    1 (by decide) (by decide)
  have hp := h.2.2.2.2.1 (by decide) (by decide)
  exact ⟨h.1, hp.1, hp.2.1⟩

/-- C9: the self-check probes only the first eligible key of the pool
(every key before it fails the eligibility test, and the outcome depends
only on the probe of that one key); a ConfigError probe outcome
propagates and halts the caller, while every other probe outcome
(whatever status it reports, including invalid, exhausted or unknown)
lets the operation proceed. -/
theorem selfCheck_spec (m e : String) (now : Nat)
    (probe probe2 : String → AttemptOutcome)
    (pool : List ApiKey) (k : ApiKey) (s : KeyStatus) :
    (pool.find? (selfCheckEligible now) = some k →
      (performSelfCheck m e now probe pool).2 = [k.value] ∧
      k ∈ pool ∧ selfCheckEligible now k = true ∧
      (∃ i, ∃ hi : i < pool.length, pool[i] = k ∧
        ∀ j : Nat, (hj : j < i) → selfCheckEligible now pool[j] = false) ∧
      (probe k.value = probe2 k.value →
        performSelfCheck m e now probe pool = performSelfCheck m e now probe2 pool) ∧
      (checkApiKey m e (probe k.value) = Except.error (m, e) →
        (performSelfCheck m e now probe pool).1 = SelfCheckResult.configErrorHalt m e) ∧
      (checkApiKey m e (probe k.value) = Except.ok s →
        (performSelfCheck m e now probe pool).1 = SelfCheckResult.proceed)) ∧
    (pool.find? (selfCheckEligible now) = none →
      (performSelfCheck m e now probe pool).2 = []) := by
  constructor
  · intro hfind
    have hkmem : k ∈ pool := List.mem_of_find?_eq_some hfind
    have hkelig : selfCheckEligible now k = true := List.find?_some hfind
    have hidx := (List.find?_eq_some_iff_getElem.mp hfind).2
    refine ⟨?_, hkmem, hkelig, ?_, ?_, ?_, ?_⟩
    · unfold performSelfCheck
      rw [hfind]
      rcases hc : checkApiKey m e (probe k.value) with ⟨a, b⟩ | st <;> simp [hc]
    · obtain ⟨i, hi, hik, hbefore⟩ := hidx
      refine ⟨i, hi, hik, fun j hj => ?_⟩
      have := hbefore j hj
      simpa using this
    · intro hagree
      simp only [performSelfCheck, hfind]
      rw [hagree]
    · intro herr
      simp only [performSelfCheck, hfind]
      rw [herr]
    · intro hok
      simp only [performSelfCheck, hfind]
      rw [hok]
  · intro hfind
    unfold performSelfCheck
    rw [hfind]
    cases hemp : pool.isEmpty <;> rfl

/-- C9 witness: over a pool whose first key is on cooldown, the probe
targets only the second key, a not-found probe outcome halts, while the
quota outcome of another probe just proceeds. -/
theorem selfCheck_spec_witness :
    (performSelfCheck "gemini-2.5-flash" "generativelanguage.googleapis.com/v1beta" 10
      (fun _ => AttemptOutcome.response 404 false
        (some (ApiErrorInfo.mk (some "NOT_FOUND") (some "model not found"))))
      [ApiKey.mk "cold" KeyStatus.active none (some 99) false none none,
       ApiKey.mk "warm" KeyStatus.unknown none none false none none]).2 = ["warm"] ∧
    (performSelfCheck "gemini-2.5-flash" "generativelanguage.googleapis.com/v1beta" 10
      (fun _ => AttemptOutcome.response 404 false
        (some (ApiErrorInfo.mk (some "NOT_FOUND") (some "model not found"))))
      [ApiKey.mk "cold" KeyStatus.active none (some 99) false none none,
       ApiKey.mk "warm" KeyStatus.unknown none none false none none]).1 =
      SelfCheckResult.configErrorHalt "gemini-2.5-flash"
        "generativelanguage.googleapis.com/v1beta" ∧
    (performSelfCheck "gemini-2.5-flash" "generativelanguage.googleapis.com/v1beta" 10
      (fun _ => AttemptOutcome.response 429 false
        (some (ApiErrorInfo.mk (some "RESOURCE_EXHAUSTED") (some "quota"))))
      [ApiKey.mk "cold" KeyStatus.active none (some 99) false none none,
       ApiKey.mk "warm" KeyStatus.unknown none none false none none]).1 =
      SelfCheckResult.proceed := by
  have h1 := selfCheck_spec "gemini-2.5-flash" "generativelanguage.googleapis.com/v1beta" 10
    (fun _ => AttemptOutcome.response 404 false
      (some (ApiErrorInfo.mk (some "NOT_FOUND") (some "model not found"))))
    (fun _ => AttemptOutcome.response 404 false
      (some (ApiErrorInfo.mk (some "NOT_FOUND") (some "model not found"))))
    [ApiKey.mk "cold" KeyStatus.active none (some 99) false none none,
     ApiKey.mk "warm" KeyStatus.unknown none none false none none]
    (ApiKey.mk "warm" KeyStatus.unknown none none false none none)
    KeyStatus.unknown
  have h2 := selfCheck_spec "gemini-2.5-flash" "generativelanguage.googleapis.com/v1beta" 10
    (fun _ => AttemptOutcome.response 429 false
      (some (ApiErrorInfo.mk (some "RESOURCE_EXHAUSTED") (some "quota"))))
    (fun _ => AttemptOutcome.response 429 false
      (some (ApiErrorInfo.mk (some "RESOURCE_EXHAUSTED") (some "quota"))))
    [ApiKey.mk "cold" KeyStatus.active none (some 99) false none none,
     ApiKey.mk "warm" KeyStatus.unknown none none false none none]
    (ApiKey.mk "warm" KeyStatus.unknown none none false none none)
    KeyStatus.exhausted
  obtain ⟨hprobe1, -, -, -, -, hhalt, -⟩ := h1.1 (by decide)
  obtain ⟨-, -, -, -, -, -, hproceed⟩ := h2.1 (by decide)
  exact ⟨hprobe1, hhalt (by rfl), hproceed (by rfl)⟩

/-- Every failure update keeps the key value. -/
theorem applyFailureUpdate_value (now : Nat) (message : String) (c : FailureClass)
    (k : ApiKey) : (applyFailureUpdate now message c k).value = k.value := by
  cases c <;> rfl

/-- Updating the key of a value rewrites exactly the first pool entry of
that value, as seen by the value lookup. -/
theorem find?_updateKeyInPool_self (pool : List ApiKey) (v : String) (f : ApiKey → ApiKey)
    (hf : ∀ k, (f k).value = k.value) :
    (updateKeyInPool pool v f).find? (fun p => p.value == v) =
      (pool.find? (fun p => p.value == v)).map f := by
  induction pool with
  | nil => rfl
  | cons k rest ih =>
    unfold updateKeyInPool
    by_cases hk : (k.value == v) = true
    · rw [if_pos hk]
      rw [@List.find?_cons_of_pos ApiKey (fun p => p.value == v) (f k) rest
          (show ((f k).value == v) = true by rw [hf k]; exact hk),
        @List.find?_cons_of_pos ApiKey (fun p => p.value == v) k rest hk]
      rfl
    · rw [if_neg hk]
      rw [@List.find?_cons_of_neg ApiKey (fun p => p.value == v) k
          (updateKeyInPool rest v f) hk,
        @List.find?_cons_of_neg ApiKey (fun p => p.value == v) k rest hk, ih]

/-- Updating the key of another value leaves the lookup of this value
unchanged. -/
theorem find?_updateKeyInPool_ne (pool : List ApiKey) (v w : String) (f : ApiKey → ApiKey)
    (hvw : v ≠ w) (hf : ∀ k, (f k).value = k.value) :
    (updateKeyInPool pool v f).find? (fun p => p.value == w) =
      pool.find? (fun p => p.value == w) := by
  induction pool with
  | nil => rfl
  | cons k rest ih =>
    unfold updateKeyInPool
    by_cases hk : (k.value == v) = true
    · rw [if_pos hk]
      have hkv : k.value = v := by simpa using hk
      have hw : ¬ (((f k).value == w) = true) := by
        rw [hf k, hkv]
        simpa using hvw
      have hw2 : ¬ ((k.value == w) = true) := by
        rw [hkv]
        simpa using hvw
      rw [@List.find?_cons_of_neg ApiKey (fun p => p.value == w) (f k) rest hw,
        @List.find?_cons_of_neg ApiKey (fun p => p.value == w) k rest hw2]
    · rw [if_neg hk]
      by_cases hkw : (k.value == w) = true
      · rw [@List.find?_cons_of_pos ApiKey (fun p => p.value == w) k
            (updateKeyInPool rest v f) hkw,
          @List.find?_cons_of_pos ApiKey (fun p => p.value == w) k rest hkw]
      · rw [@List.find?_cons_of_neg ApiKey (fun p => p.value == w) k
            (updateKeyInPool rest v f) hkw,
          @List.find?_cons_of_neg ApiKey (fun p => p.value == w) k rest hkw, ih]


/-- Core induction for the config-error abort: once any attempted key of
the rotation loop has a config-classified outcome, the loop ends in
ConfigError, that key is the last attempt, and its pool entry is left
with status config_error and no resetTime. -/
theorem dispatchLoop_config_aborts (model endpoint : String) (now : Nat)
    (oracle : String → AttemptOutcome) :
    ∀ (ks pool : List ApiKey) (v : String),
      v ∈ (dispatchLoop model endpoint now oracle ks pool).2.2 →
      isConfigOutcome (oracle v) = true →
      (dispatchLoop model endpoint now oracle ks pool).1 =
        DispatchResult.configError model endpoint ∧
      (dispatchLoop model endpoint now oracle ks pool).2.2.getLast? = some v ∧
      ((dispatchLoop model endpoint now oracle ks pool).2.1.find?
        (fun p => p.value == v)).map ApiKey.status = some KeyStatus.config_error ∧
      ((dispatchLoop model endpoint now oracle ks pool).2.1.find?
        (fun p => p.value == v)).map ApiKey.resetTime = some none := by
  intro ks
  induction ks with
  | nil =>
    intro pool v hv hcfg
    simp [dispatchLoop] at hv
  | cons k rest ih =>
    intro pool v hv hcfg
    cases hfind : pool.find? (fun p => p.value == k.value) with
    | none =>
      have heq : dispatchLoop model endpoint now oracle (k :: rest) pool =
          dispatchLoop model endpoint now oracle rest pool := by
        simp only [dispatchLoop, hfind]
      rw [heq] at hv ⊢
      exact ih pool v hv hcfg
    | some keyState =>
      by_cases hguard :
          (isBadStatusForDispatch keyState.status || isOnCooldown now keyState) = true
      · have heq : dispatchLoop model endpoint now oracle (k :: rest) pool =
            dispatchLoop model endpoint now oracle rest pool := by
          simp only [dispatchLoop, hfind]
          rw [if_pos hguard]
        rw [heq] at hv ⊢
        exact ih pool v hv hcfg
      · cases horacle : oracle k.value with
        | networkError msg =>
          have heq : dispatchLoop model endpoint now oracle (k :: rest) pool =
              ((dispatchLoop model endpoint now oracle rest
                  (updateKeyInPool pool k.value (fun p =>
                    { p with status := KeyStatus.unknown, lastError := some msg }))).1,
               (dispatchLoop model endpoint now oracle rest
                  (updateKeyInPool pool k.value (fun p =>
                    { p with status := KeyStatus.unknown, lastError := some msg }))).2.1,
               k.value :: (dispatchLoop model endpoint now oracle rest
                  (updateKeyInPool pool k.value (fun p =>
                    { p with status := KeyStatus.unknown, lastError := some msg }))).2.2) := by
            simp only [dispatchLoop, hfind]
            rw [if_neg hguard]
            simp only [horacle]
          rw [heq] at hv ⊢
          rcases List.mem_cons.mp hv with rfl | hv2
          · rw [horacle] at hcfg
            simp [isConfigOutcome] at hcfg
          · obtain ⟨h1, h2, h3, h4⟩ := ih _ v hv2 hcfg
            refine ⟨h1, ?_, h3, h4⟩
            rw [List.getLast?_cons, h2]
            rfl
        | response httpStatus hasCandidates err =>
          by_cases hfail : (err.isSome || !(responseOk httpStatus)) = true
          · cases hcls : classifyFailure httpStatus (errStatusOf err) (errMessageOf err) with
            | configError =>
              have heq : dispatchLoop model endpoint now oracle (k :: rest) pool =
                  (DispatchResult.configError model endpoint,
                   updateKeyInPool pool k.value
                     (applyFailureUpdate now (errMessageOf err) FailureClass.configError),
                   [k.value]) := by
                simp only [dispatchLoop, hfind]
                rw [if_neg hguard]
                simp only [horacle]
                rw [if_pos hfail]
                simp only [hcls, if_true]
              rw [heq] at hv ⊢
              have hvk : v = k.value := by simpa using hv
              subst hvk
              refine ⟨rfl, rfl, ?_, ?_⟩
              · rw [find?_updateKeyInPool_self pool k.value _
                  (fun q => applyFailureUpdate_value now (errMessageOf err) _ q), hfind]
                rfl
              · rw [find?_updateKeyInPool_self pool k.value _
                  (fun q => applyFailureUpdate_value now (errMessageOf err) _ q), hfind]
                rfl
            | invalidKey =>
              have heq : dispatchLoop model endpoint now oracle (k :: rest) pool =
                  ((dispatchLoop model endpoint now oracle rest
                      (updateKeyInPool pool k.value
                        (applyFailureUpdate now (errMessageOf err)
                          FailureClass.invalidKey))).1,
                   (dispatchLoop model endpoint now oracle rest
                      (updateKeyInPool pool k.value
                        (applyFailureUpdate now (errMessageOf err)
                          FailureClass.invalidKey))).2.1,
                   k.value :: (dispatchLoop model endpoint now oracle rest
                      (updateKeyInPool pool k.value
                        (applyFailureUpdate now (errMessageOf err)
                          FailureClass.invalidKey))).2.2) := by
                simp only [dispatchLoop, hfind]
                rw [if_neg hguard]
                simp only [horacle]
                rw [if_pos hfail]
                simp only [hcls]
                rw [if_neg (by simp)]
              rw [heq] at hv ⊢
              rcases List.mem_cons.mp hv with rfl | hv2
              · rw [horacle] at hcfg
                simp [isConfigOutcome, hfail, hcls] at hcfg
              · obtain ⟨h1, h2, h3, h4⟩ := ih _ v hv2 hcfg
                refine ⟨h1, ?_, h3, h4⟩
                rw [List.getLast?_cons, h2]
                rfl
            | quota =>
              have heq : dispatchLoop model endpoint now oracle (k :: rest) pool =
                  ((dispatchLoop model endpoint now oracle rest
                      (updateKeyInPool pool k.value
                        (applyFailureUpdate now (errMessageOf err)
                          FailureClass.quota))).1,
                   (dispatchLoop model endpoint now oracle rest
                      (updateKeyInPool pool k.value
                        (applyFailureUpdate now (errMessageOf err)
                          FailureClass.quota))).2.1,
                   k.value :: (dispatchLoop model endpoint now oracle rest
                      (updateKeyInPool pool k.value
                        (applyFailureUpdate now (errMessageOf err)
                          FailureClass.quota))).2.2) := by
                simp only [dispatchLoop, hfind]
                rw [if_neg hguard]
                simp only [horacle]
                rw [if_pos hfail]
                simp only [hcls]
                rw [if_neg (by simp)]
              rw [heq] at hv ⊢
              rcases List.mem_cons.mp hv with rfl | hv2
              · rw [horacle] at hcfg
                simp [isConfigOutcome, hfail, hcls] at hcfg
              · obtain ⟨h1, h2, h3, h4⟩ := ih _ v hv2 hcfg
                refine ⟨h1, ?_, h3, h4⟩
                rw [List.getLast?_cons, h2]
                rfl
            | serverError =>
              have heq : dispatchLoop model endpoint now oracle (k :: rest) pool =
                  ((dispatchLoop model endpoint now oracle rest
                      (updateKeyInPool pool k.value
                        (applyFailureUpdate now (errMessageOf err)
                          FailureClass.serverError))).1,
                   (dispatchLoop model endpoint now oracle rest
                      (updateKeyInPool pool k.value
                        (applyFailureUpdate now (errMessageOf err)
                          FailureClass.serverError))).2.1,
                   k.value :: (dispatchLoop model endpoint now oracle rest
                      (updateKeyInPool pool k.value
                        (applyFailureUpdate now (errMessageOf err)
                          FailureClass.serverError))).2.2) := by
                simp only [dispatchLoop, hfind]
                rw [if_neg hguard]
                simp only [horacle]
                rw [if_pos hfail]
                simp only [hcls]
                rw [if_neg (by simp)]
              rw [heq] at hv ⊢
              rcases List.mem_cons.mp hv with rfl | hv2
              · rw [horacle] at hcfg
                simp [isConfigOutcome, hfail, hcls] at hcfg
              · obtain ⟨h1, h2, h3, h4⟩ := ih _ v hv2 hcfg
                refine ⟨h1, ?_, h3, h4⟩
                rw [List.getLast?_cons, h2]
                rfl
            | unknownError =>
              have heq : dispatchLoop model endpoint now oracle (k :: rest) pool =
                  ((dispatchLoop model endpoint now oracle rest
                      (updateKeyInPool pool k.value
                        (applyFailureUpdate now (errMessageOf err)
                          FailureClass.unknownError))).1,
                   (dispatchLoop model endpoint now oracle rest
                      (updateKeyInPool pool k.value
                        (applyFailureUpdate now (errMessageOf err)
                          FailureClass.unknownError))).2.1,
                   k.value :: (dispatchLoop model endpoint now oracle rest
                      (updateKeyInPool pool k.value
                        (applyFailureUpdate now (errMessageOf err)
                          FailureClass.unknownError))).2.2) := by
                simp only [dispatchLoop, hfind]
                rw [if_neg hguard]
                simp only [horacle]
                rw [if_pos hfail]
                simp only [hcls]
                rw [if_neg (by simp)]
              rw [heq] at hv ⊢
              rcases List.mem_cons.mp hv with rfl | hv2
              · rw [horacle] at hcfg
                simp [isConfigOutcome, hfail, hcls] at hcfg
              · obtain ⟨h1, h2, h3, h4⟩ := ih _ v hv2 hcfg
                refine ⟨h1, ?_, h3, h4⟩
                rw [List.getLast?_cons, h2]
                rfl
          · have heq : dispatchLoop model endpoint now oracle (k :: rest) pool =
                (DispatchResult.success k.value,
                 updateKeyInPool pool k.value
                   (fun p => { p with status := KeyStatus.active, lastError := none, resetTime := none }),
                 [k.value]) := by
              simp only [dispatchLoop, hfind]
              rw [if_neg hguard]
              simp only [horacle]
              rw [if_neg hfail]
            rw [heq] at hv ⊢
            have hvk : v = k.value := by simpa using hv
            subst hvk
            rw [horacle] at hcfg
            simp only [isConfigOutcome, Bool.and_eq_true] at hcfg
            exact absurd hcfg.1 hfail

/-- C1: if any attempted key of a dispatch returns a not-found /
bad-configuration response (HTTP 404 or error status NOT_FOUND), the
dispatcher sets that key status to config_error, clears its resetTime,
and the dispatch ends immediately at that attempt with ConfigError
carrying the model and endpoint — the config-classified key is the last
entry of the attempt list, so no subsequent key is attempted. -/
theorem config_error_aborts (model endpoint : String) (now : Nat)
    (oracle : String → AttemptOutcome) (pool : List ApiKey) (v : String)
    (hv : v ∈ (makeGoogleApiCall model endpoint now oracle pool).2.2)
    (hcfg : isConfigOutcome (oracle v) = true) :
    (makeGoogleApiCall model endpoint now oracle pool).1 =
      DispatchResult.configError model endpoint ∧
    (makeGoogleApiCall model endpoint now oracle pool).2.2.getLast? = some v ∧
    ((makeGoogleApiCall model endpoint now oracle pool).2.1.find?
      (fun p => p.value == v)).map ApiKey.status = some KeyStatus.config_error ∧
    ((makeGoogleApiCall model endpoint now oracle pool).2.1.find?
      (fun p => p.value == v)).map ApiKey.resetTime = some none := by
  by_cases hc : (((getOrderedKeys pool).filter (isAvailableKey now)).isEmpty &&
      !(getOrderedKeys pool).isEmpty) = true
  · have heq : makeGoogleApiCall model endpoint now oracle pool =
        (DispatchResult.allKeysFailed pool, pool, []) := by
      simp only [makeGoogleApiCall]
      rw [if_pos hc]
    rw [heq] at hv
    simp at hv
  · have heq : makeGoogleApiCall model endpoint now oracle pool =
        dispatchLoop model endpoint now oracle (getOrderedKeys pool) pool := by
      simp only [makeGoogleApiCall]
      rw [if_neg hc]
    rw [heq] at hv ⊢
    exact dispatchLoop_config_aborts model endpoint now oracle
      (getOrderedKeys pool) pool v hv hcfg

/-- C1 witness: in a two-key pool whose first attempt answers 404
NOT_FOUND, the dispatch raises ConfigError at the first key, marks it
config_error with no resetTime, and never attempts the second key. -/
theorem config_error_aborts_witness :
    (makeGoogleApiCall "gemini-2.5-flash" "generativelanguage.googleapis.com/v1beta" 50
      (fun _ => AttemptOutcome.response 404 false
        (some (ApiErrorInfo.mk (some "NOT_FOUND") (some "model not found"))))
      [ApiKey.mk "aaaa" KeyStatus.active none none false none none,
       ApiKey.mk "bbbb" KeyStatus.active none none false none none]).1 =
      DispatchResult.configError "gemini-2.5-flash"
        "generativelanguage.googleapis.com/v1beta" ∧
    (makeGoogleApiCall "gemini-2.5-flash" "generativelanguage.googleapis.com/v1beta" 50
      (fun _ => AttemptOutcome.response 404 false
        (some (ApiErrorInfo.mk (some "NOT_FOUND") (some "model not found"))))
      [ApiKey.mk "aaaa" KeyStatus.active none none false none none,
       ApiKey.mk "bbbb" KeyStatus.active none none false none none]).2.2.getLast? =
      some "aaaa" ∧
    (((makeGoogleApiCall "gemini-2.5-flash" "generativelanguage.googleapis.com/v1beta" 50
      (fun _ => AttemptOutcome.response 404 false
        (some (ApiErrorInfo.mk (some "NOT_FOUND") (some "model not found"))))
      [ApiKey.mk "aaaa" KeyStatus.active none none false none none,
       ApiKey.mk "bbbb" KeyStatus.active none none false none none]).2.1.find?
      (fun p => p.value == "aaaa")).map ApiKey.status = some KeyStatus.config_error) ∧
    (((makeGoogleApiCall "gemini-2.5-flash" "generativelanguage.googleapis.com/v1beta" 50
      (fun _ => AttemptOutcome.response 404 false
        (some (ApiErrorInfo.mk (some "NOT_FOUND") (some "model not found"))))
      [ApiKey.mk "aaaa" KeyStatus.active none none false none none,
       ApiKey.mk "bbbb" KeyStatus.active none none false none none]).2.1.find?
      (fun p => p.value == "aaaa")).map ApiKey.resetTime = some none) :=
  config_error_aborts "gemini-2.5-flash" "generativelanguage.googleapis.com/v1beta" 50
    (fun _ => AttemptOutcome.response 404 false
      (some (ApiErrorInfo.mk (some "NOT_FOUND") (some "model not found"))))
    [ApiKey.mk "aaaa" KeyStatus.active none none false none none,
     ApiKey.mk "bbbb" KeyStatus.active none none false none none]
    "aaaa" (by decide) (by decide)

/-- A value whose current pool entry fails the availability test is
never attempted: the rotation loop skips it at every encounter, and
updates to other keys never change its entry. -/
theorem dispatchLoop_skips_unavailable (model endpoint : String) (now : Nat)
    (oracle : String → AttemptOutcome) :
    ∀ (ks pool : List ApiKey) (v : String),
      (∀ q, pool.find? (fun p => p.value == v) = some q →
        isAvailableKey now q = false) →
      v ∉ (dispatchLoop model endpoint now oracle ks pool).2.2 := by
  intro ks
  induction ks with
  | nil =>
    intro pool v hbad
    simp [dispatchLoop]
  | cons k rest ih =>
    intro pool v hbad
    cases hfind : pool.find? (fun p => p.value == k.value) with
    | none =>
      have heq : dispatchLoop model endpoint now oracle (k :: rest) pool =
          dispatchLoop model endpoint now oracle rest pool := by
        simp only [dispatchLoop, hfind]
      rw [heq]
      exact ih pool v hbad
    | some keyState =>
      by_cases hguard :
          (isBadStatusForDispatch keyState.status || isOnCooldown now keyState) = true
      · have heq : dispatchLoop model endpoint now oracle (k :: rest) pool =
            dispatchLoop model endpoint now oracle rest pool := by
          simp only [dispatchLoop, hfind]
          rw [if_pos hguard]
        rw [heq]
        exact ih pool v hbad
      · have havail : isAvailableKey now keyState = true := by
          have hg : (isBadStatusForDispatch keyState.status ||
              isOnCooldown now keyState) = false := by
            simpa using hguard
          rw [Bool.or_eq_false_iff] at hg
          unfold isAvailableKey
          rw [hg.1, hg.2]
          rfl
        have hkv : ¬ (k.value = v) := by
          intro he
          have hq := hbad keyState (by rw [← he]; exact hfind)
          rw [havail] at hq
          cases hq
        cases horacle : oracle k.value with
        | networkError msg =>
          have heq : dispatchLoop model endpoint now oracle (k :: rest) pool =
              ((dispatchLoop model endpoint now oracle rest
                  (updateKeyInPool pool k.value (fun p =>
                    { p with status := KeyStatus.unknown, lastError := some msg }))).1,
               (dispatchLoop model endpoint now oracle rest
                  (updateKeyInPool pool k.value (fun p =>
                    { p with status := KeyStatus.unknown, lastError := some msg }))).2.1,
               k.value :: (dispatchLoop model endpoint now oracle rest
                  (updateKeyInPool pool k.value (fun p =>
                    { p with status := KeyStatus.unknown, lastError := some msg }))).2.2) := by
            simp only [dispatchLoop, hfind]
            rw [if_neg hguard]
            simp only [horacle]
          rw [heq]
          intro hmem
          rcases List.mem_cons.mp hmem with rfl | h2
          · exact hkv rfl
          · have hbad2 : ∀ q,
                (updateKeyInPool pool k.value (fun p =>
                  { p with status := KeyStatus.unknown, lastError := some msg })).find?
                  (fun p => p.value == v) = some q → isAvailableKey now q = false := by
              intro q hq
              rw [find?_updateKeyInPool_ne pool k.value v
                (fun p => { p with status := KeyStatus.unknown, lastError := some msg })
                hkv (fun p => rfl)] at hq
              exact hbad q hq
            exact ih _ v hbad2 h2
        | response httpStatus hasCandidates err =>
          by_cases hfail : (err.isSome || !(responseOk httpStatus)) = true
          · by_cases hcls : classifyFailure httpStatus (errStatusOf err)
                (errMessageOf err) = FailureClass.configError
            · have heq : dispatchLoop model endpoint now oracle (k :: rest) pool =
                  (DispatchResult.configError model endpoint,
                   updateKeyInPool pool k.value
                     (applyFailureUpdate now (errMessageOf err)
                       (classifyFailure httpStatus (errStatusOf err) (errMessageOf err))),
                   [k.value]) := by
                simp only [dispatchLoop, hfind]
                rw [if_neg hguard]
                simp only [horacle]
                rw [if_pos hfail, if_pos hcls]
              rw [heq]
              intro hmem
              rcases List.mem_cons.mp hmem with rfl | h2
              · exact hkv rfl
              · cases h2
            · have heq : dispatchLoop model endpoint now oracle (k :: rest) pool =
                  ((dispatchLoop model endpoint now oracle rest
                      (updateKeyInPool pool k.value
                        (applyFailureUpdate now (errMessageOf err)
                          (classifyFailure httpStatus (errStatusOf err)
                            (errMessageOf err))))).1,
                   (dispatchLoop model endpoint now oracle rest
                      (updateKeyInPool pool k.value
                        (applyFailureUpdate now (errMessageOf err)
                          (classifyFailure httpStatus (errStatusOf err)
                            (errMessageOf err))))).2.1,
                   k.value :: (dispatchLoop model endpoint now oracle rest
                      (updateKeyInPool pool k.value
                        (applyFailureUpdate now (errMessageOf err)
                          (classifyFailure httpStatus (errStatusOf err)
                            (errMessageOf err))))).2.2) := by
                simp only [dispatchLoop, hfind]
                rw [if_neg hguard]
                simp only [horacle]
                rw [if_pos hfail, if_neg hcls]
              rw [heq]
              intro hmem
              rcases List.mem_cons.mp hmem with rfl | h2
              · exact hkv rfl
              · have hbad2 : ∀ q,
                    (updateKeyInPool pool k.value
                      (applyFailureUpdate now (errMessageOf err)
                        (classifyFailure httpStatus (errStatusOf err)
                          (errMessageOf err)))).find?
                      (fun p => p.value == v) = some q →
                      isAvailableKey now q = false := by
                  intro q hq
                  rw [find?_updateKeyInPool_ne pool k.value v
                    (applyFailureUpdate now (errMessageOf err)
                      (classifyFailure httpStatus (errStatusOf err) (errMessageOf err)))
                    hkv
                    (fun p => applyFailureUpdate_value now (errMessageOf err) _ p)] at hq
                  exact hbad q hq
                exact ih _ v hbad2 h2
          · have heq : dispatchLoop model endpoint now oracle (k :: rest) pool =
                (DispatchResult.success k.value,
                 updateKeyInPool pool k.value
                   (fun p => { p with status := KeyStatus.active, lastError := none, resetTime := none }),
                 [k.value]) := by
              simp only [dispatchLoop, hfind]
              rw [if_neg hguard]
              simp only [horacle]
              rw [if_neg hfail]
            rw [heq]
            intro hmem
            rcases List.mem_cons.mp hmem with rfl | h2
            · exact hkv rfl
            · cases h2

/-- C3 (corrected), counterexample: with an invalid pinned key and an
active non-pinned key, the eligible set is not empty (it holds the
non-pinned key) and the dispatch attempts and succeeds with the
non-pinned key — pinning falls back instead of aborting. -/
theorem pinned_fallback_cex :
    getAvailableKeys 0
      [ApiKey.mk "pppp" KeyStatus.invalid none none true none none,
       ApiKey.mk "gggg" KeyStatus.active none none false none none] =
      [ApiKey.mk "gggg" KeyStatus.active none none false none none] ∧
    (makeGoogleApiCall "gemini-2.5-flash" "generativelanguage.googleapis.com/v1beta" 0
      (fun _ => AttemptOutcome.response 200 true none)
      [ApiKey.mk "pppp" KeyStatus.invalid none none true none none,
       ApiKey.mk "gggg" KeyStatus.active none none false none none]).2.2 = ["gggg"] ∧
    (makeGoogleApiCall "gemini-2.5-flash" "generativelanguage.googleapis.com/v1beta" 0
      (fun _ => AttemptOutcome.response 200 true none)
      [ApiKey.mk "pppp" KeyStatus.invalid none none true none none,
       ApiKey.mk "gggg" KeyStatus.active none none false none none]).1 =
      DispatchResult.success "gggg" ∧
    (ApiKey.mk "gggg" KeyStatus.active none none false none none).isPinned = false := by
  refine ⟨by decide, by decide, by decide, by decide⟩

/-- C3 (amended): an unusable pinned key is itself never attempted (the
loop skips every key whose pool entry fails the availability test), but
the dispatcher then falls back to the non-pinned keys instead of
aborting, so pinning is a try-first preference, not a hard directive. -/
theorem pinned_unusable_skipped (model endpoint : String) (now : Nat)
    (oracle : String → AttemptOutcome) (pool : List ApiKey) (pk : ApiKey)
    (hmem : pk ∈ pool) (hpin : pk.isPinned = true)
    (hbad : ∀ q, pool.find? (fun p => p.value == pk.value) = some q →
      isAvailableKey now q = false) :
    pk.value ∉ (makeGoogleApiCall model endpoint now oracle pool).2.2 := by
  by_cases hc : (((getOrderedKeys pool).filter (isAvailableKey now)).isEmpty &&
      !(getOrderedKeys pool).isEmpty) = true
  · have heq : makeGoogleApiCall model endpoint now oracle pool =
        (DispatchResult.allKeysFailed pool, pool, []) := by
      simp only [makeGoogleApiCall]
      rw [if_pos hc]
    rw [heq]
    simp
  · have heq : makeGoogleApiCall model endpoint now oracle pool =
        dispatchLoop model endpoint now oracle (getOrderedKeys pool) pool := by
      simp only [makeGoogleApiCall]
      rw [if_neg hc]
    rw [heq]
    exact dispatchLoop_skips_unavailable model endpoint now oracle
      (getOrderedKeys pool) pool pk.value hbad

/-- C3 witness: the invalid pinned key of the two-key pool is absent
from the attempt list of the dispatch. -/
theorem pinned_unusable_skipped_witness :
    "pppp" ∉ (makeGoogleApiCall "gemini-2.5-flash"
      "generativelanguage.googleapis.com/v1beta" 0
      (fun _ => AttemptOutcome.response 200 true none)
      [ApiKey.mk "pppp" KeyStatus.invalid none none true none none,
       ApiKey.mk "gggg" KeyStatus.active none none false none none]).2.2 :=
  pinned_unusable_skipped "gemini-2.5-flash" "generativelanguage.googleapis.com/v1beta" 0
    (fun _ => AttemptOutcome.response 200 true none)
    [ApiKey.mk "pppp" KeyStatus.invalid none none true none none,
     ApiKey.mk "gggg" KeyStatus.active none none false none none]
    (ApiKey.mk "pppp" KeyStatus.invalid none none true none none)
    (by decide) (by decide)
    (by
      intro q hq
      have hfq : List.find? (fun p => p.value ==
          (ApiKey.mk "pppp" KeyStatus.invalid none none true none none).value)
          [ApiKey.mk "pppp" KeyStatus.invalid none none true none none,
           ApiKey.mk "gggg" KeyStatus.active none none false none none] =
          some (ApiKey.mk "pppp" KeyStatus.invalid none none true none none) := by
        decide
      rw [hfq] at hq
      cases Option.some.inj hq
      decide)

/-- C4 (corrected), counterexample: after a dispatch in which the only
key fails with a network error, the key carries the recorded lastError
with status unknown and no resetTime at all, and it is still outside the
eligible set at an arbitrarily late time — it never becomes eligible
again automatically, contradicting the claimed cooldown recovery. -/
theorem network_error_key_stays_excluded_cex :
    (makeGoogleApiCall "gemini-2.5-flash" "generativelanguage.googleapis.com/v1beta" 0
      (fun _ => AttemptOutcome.networkError "offline")
      [ApiKey.mk "nnnn" KeyStatus.active none none false none none]).2.1 =
      [ApiKey.mk "nnnn" KeyStatus.unknown none none false none (some "offline")] ∧
    (makeGoogleApiCall "gemini-2.5-flash" "generativelanguage.googleapis.com/v1beta" 0
      (fun _ => AttemptOutcome.networkError "offline")
      [ApiKey.mk "nnnn" KeyStatus.active none none false none none]).2.2 = ["nnnn"] ∧
    getAvailableKeys 1000000000000
      [ApiKey.mk "nnnn" KeyStatus.unknown none none false none (some "offline")] = [] := by
  refine ⟨by decide, by decide, by decide⟩

/-- C4 (amended): a transport-level failure records the lastError on the
key and the loop continues with the remaining keys of the same dispatch,
but the key is marked status unknown with no cooldown scheduled, and a
key in that state fails the availability filter at every time — it stays
out of future dispatches until a health check or reset changes it. -/
theorem network_error_marks_unknown (model endpoint : String) (now t : Nat)
    (oracle : String → AttemptOutcome) (k keyState : ApiKey)
    (rest pool : List ApiKey) (msg : String)
    (hfind : pool.find? (fun p => p.value == k.value) = some keyState)
    (havail : isAvailableKey now keyState = true)
    (hnet : oracle k.value = AttemptOutcome.networkError msg) :
    dispatchLoop model endpoint now oracle (k :: rest) pool =
      ((dispatchLoop model endpoint now oracle rest
          (updateKeyInPool pool k.value (fun p =>
            { p with status := KeyStatus.unknown, lastError := some msg }))).1,
       (dispatchLoop model endpoint now oracle rest
          (updateKeyInPool pool k.value (fun p =>
            { p with status := KeyStatus.unknown, lastError := some msg }))).2.1,
       k.value :: (dispatchLoop model endpoint now oracle rest
          (updateKeyInPool pool k.value (fun p =>
            { p with status := KeyStatus.unknown, lastError := some msg }))).2.2) ∧
    ((updateKeyInPool pool k.value (fun p =>
        { p with status := KeyStatus.unknown, lastError := some msg })).find?
      (fun p => p.value == k.value)) =
      some { keyState with status := KeyStatus.unknown, lastError := some msg } ∧
    isAvailableKey t
      { keyState with status := KeyStatus.unknown, lastError := some msg } = false := by
  have hguard : ¬ ((isBadStatusForDispatch keyState.status ||
      isOnCooldown now keyState) = true) := by
    unfold isAvailableKey at havail
    rw [Bool.and_eq_true, Bool.not_eq_true', Bool.not_eq_true'] at havail
    simp [havail.1, havail.2]
  refine ⟨?_, ?_, ?_⟩
  · simp only [dispatchLoop, hfind]
    rw [if_neg hguard]
    simp only [hnet]
  · rw [find?_updateKeyInPool_self pool k.value
      (fun p => { p with status := KeyStatus.unknown, lastError := some msg })
      (fun q => rfl), hfind]
    rfl
  · simp [isAvailableKey, isBadStatusForDispatch]

/-- C4 witness: the amended statement instantiated over a two-key pool
whose first attempt is a network error. -/
theorem network_error_marks_unknown_witness :
    dispatchLoop "gemini-2.5-flash" "generativelanguage.googleapis.com/v1beta" 0
      (fun _ => AttemptOutcome.networkError "offline")
      [ApiKey.mk "nnnn" KeyStatus.active none none false none none]
      [ApiKey.mk "nnnn" KeyStatus.active none none false none none,
       ApiKey.mk "qqqq" KeyStatus.active none none false none none] =
      ((dispatchLoop "gemini-2.5-flash" "generativelanguage.googleapis.com/v1beta" 0
          (fun _ => AttemptOutcome.networkError "offline") []
          (updateKeyInPool
            [ApiKey.mk "nnnn" KeyStatus.active none none false none none,
             ApiKey.mk "qqqq" KeyStatus.active none none false none none]
            "nnnn" (fun p =>
              { p with status := KeyStatus.unknown, lastError := some "offline" }))).1,
       (dispatchLoop "gemini-2.5-flash" "generativelanguage.googleapis.com/v1beta" 0
          (fun _ => AttemptOutcome.networkError "offline") []
          (updateKeyInPool
            [ApiKey.mk "nnnn" KeyStatus.active none none false none none,
             ApiKey.mk "qqqq" KeyStatus.active none none false none none]
            "nnnn" (fun p =>
              { p with status := KeyStatus.unknown, lastError := some "offline" }))).2.1,
       "nnnn" :: (dispatchLoop "gemini-2.5-flash"
          "generativelanguage.googleapis.com/v1beta" 0
          (fun _ => AttemptOutcome.networkError "offline") []
          (updateKeyInPool
            [ApiKey.mk "nnnn" KeyStatus.active none none false none none,
             ApiKey.mk "qqqq" KeyStatus.active none none false none none]
            "nnnn" (fun p =>
              { p with status := KeyStatus.unknown, lastError := some "offline" }))).2.2) ∧
    ((updateKeyInPool
        [ApiKey.mk "nnnn" KeyStatus.active none none false none none,
         ApiKey.mk "qqqq" KeyStatus.active none none false none none]
        "nnnn" (fun p =>
          { p with status := KeyStatus.unknown, lastError := some "offline" })).find?
      (fun p => p.value == "nnnn")) =
      some (ApiKey.mk "nnnn" KeyStatus.unknown none none false none (some "offline")) ∧
    isAvailableKey 999999999
      (ApiKey.mk "nnnn" KeyStatus.unknown none none false none (some "offline")) =
      false :=
  network_error_marks_unknown "gemini-2.5-flash"
    "generativelanguage.googleapis.com/v1beta" 0 999999999
    (fun _ => AttemptOutcome.networkError "offline")
    (ApiKey.mk "nnnn" KeyStatus.active none none false none none)
    (ApiKey.mk "nnnn" KeyStatus.active none none false none none)
    []
    [ApiKey.mk "nnnn" KeyStatus.active none none false none none,
     ApiKey.mk "qqqq" KeyStatus.active none none false none none]
    "offline" (by decide) (by decide) (by rfl)

/-- Running no steps leaves the state alone. -/
theorem runAnalysis_nil (st : AnalysisState) : runAnalysis st [] = st := rfl

/-- Running one more step first fires the effect once. -/
theorem runAnalysis_cons (st : AnalysisState) (o : AnalysisStepOutcome)
    (outs : List AnalysisStepOutcome) :
    runAnalysis st (o :: outs) = runAnalysis (analysisStep st o) outs := rfl

/-- Runs compose over concatenation of outcome lists. -/
theorem runAnalysis_append (st : AnalysisState) (a b : List AnalysisStepOutcome) :
    runAnalysis st (a ++ b) = runAnalysis (runAnalysis st a) b := by
  unfold runAnalysis
  exact List.foldl_append analysisStep st a b

/-- Setting the position right after a filled block extends the block by
one element of the trailing blank block. -/
theorem set_after_block (pre : List (Option String)) (n k : Nat) (x : Option String)
    (hpre : pre.length = k) (hk : k < n) :
    (pre ++ List.replicate (n - k) none).set k x =
      (pre ++ [x]) ++ List.replicate (n - (k + 1)) none := by
  rw [List.set_append]
  rw [if_neg (by omega)]
  rw [hpre, Nat.sub_self]
  have h1 : n - k = (n - (k + 1)) + 1 := by omega
  rw [h1, List.replicate_succ]
  simp

/-- A block of successful analysis steps advances the cursor index one
image at a time, in order, recording each description at its index and
carrying the latest story, while the status stays running. -/
theorem runAnalysis_analyzeOk_go (ids : List String) :
    ∀ (rest : List (String × String)) (k : Nat) (pre : List (Option String))
      (story : String) (sl : List Slide),
      pre.length = k → k + rest.length ≤ ids.length →
      runAnalysis
        { imagesToAnalyze := ids, currentIndex := k, status := CursorStatus.running,
          descriptions := pre ++ List.replicate (ids.length - k) none,
          story := story, slides := sl, appChat := false }
        (rest.map fun d => AnalysisStepOutcome.analyzeOk d.1 d.2) =
      { imagesToAnalyze := ids, currentIndex := k + rest.length,
        status := CursorStatus.running,
        descriptions := (pre ++ rest.map fun d => some d.1) ++
          List.replicate (ids.length - (k + rest.length)) none,
        story := (rest.map Prod.snd).getLastD story, slides := sl,
        appChat := false } := by
  intro rest
  induction rest with
  | nil =>
    intro k pre story sl hpre hle
    simp [runAnalysis]
  | cons d rest ih =>
    intro k pre story sl hpre hle
    have hk : k < ids.length := by
      have := hle
      simp only [List.length_cons] at this
      omega
    have hdesc : (pre ++ List.replicate (ids.length - k) none).set k (some d.1) =
        (pre ++ [some d.1]) ++ List.replicate (ids.length - (k + 1)) none :=
      set_after_block pre ids.length k (some d.1) hpre hk
    have hstep : analysisStep
        { imagesToAnalyze := ids, currentIndex := k, status := CursorStatus.running,
          descriptions := pre ++ List.replicate (ids.length - k) none,
          story := story, slides := sl, appChat := false }
        (AnalysisStepOutcome.analyzeOk d.1 d.2) =
        { imagesToAnalyze := ids, currentIndex := k + 1,
          status := CursorStatus.running,
          descriptions := (pre ++ [some d.1]) ++
            List.replicate (ids.length - (k + 1)) none,
          story := d.2, slides := sl, appChat := false } := by
      simp [analysisStep, hk, hdesc]
    rw [List.map_cons, runAnalysis_cons, hstep]
    have hpre2 : (pre ++ [some d.1]).length = k + 1 := by
      simp [hpre]
    have hle2 : (k + 1) + rest.length ≤ ids.length := by
      simp only [List.length_cons] at hle
      omega
    rw [ih (k + 1) (pre ++ [some d.1]) d.2 sl hpre2 hle2]
    have harith : k + (d :: rest).length = (k + 1) + rest.length := by
      simp only [List.length_cons]
      omega
    rw [harith, List.map_cons, List.map_cons, List.getLastD_cons]
    simp [List.append_assoc]

/-- C2: over N images, a successful run performs exactly the N analysis
steps in input order — after the first k of them the cursor is still
running at index k, with exactly the first k descriptions recorded and
the story of step k-1 — followed by one synthesis step that reaches done
with the parsed slides and the chat view; a failing analysis step at
index k pauses at index k with the results of steps 0..k-1 untouched and
the bound retry resumes running at the same index k; a failing synthesis
step pauses with the index past the last image, and the resumed retry
re-invokes synthesis (not image analysis), finishing in the same done
state. -/
theorem analysisCursor_run_spec (ids : List String) (descs : List (String × String))
    (sl : List Slide) (k : Nat)
    (hlen : descs.length = ids.length) (hk : k ≤ ids.length) :
    runAnalysis (startAnalysis ids)
        ((descs.take k).map fun d => AnalysisStepOutcome.analyzeOk d.1 d.2) =
      { imagesToAnalyze := ids, currentIndex := k, status := CursorStatus.running,
        descriptions := (descs.take k).map (fun d => some d.1) ++
          List.replicate (ids.length - k) none,
        story := ((descs.take k).map Prod.snd).getLastD "", slides := [],
        appChat := false } ∧
    runAnalysis (startAnalysis ids)
        ((descs.map fun d => AnalysisStepOutcome.analyzeOk d.1 d.2) ++
          [AnalysisStepOutcome.synthOk sl]) =
      { imagesToAnalyze := [], currentIndex := 0, status := CursorStatus.done,
        descriptions := descs.map (fun d => some d.1),
        story := (descs.map Prod.snd).getLastD "", slides := sl, appChat := true } ∧
    (k < ids.length →
      runAnalysis (startAnalysis ids)
          ((descs.take k).map (fun d => AnalysisStepOutcome.analyzeOk d.1 d.2) ++
            [AnalysisStepOutcome.failure]) =
        { imagesToAnalyze := ids, currentIndex := k, status := CursorStatus.paused,
          descriptions := (descs.take k).map (fun d => some d.1) ++
            List.replicate (ids.length - k) none,
          story := ((descs.take k).map Prod.snd).getLastD "", slides := [],
          appChat := false } ∧
      resumeAnalysis
          { imagesToAnalyze := ids, currentIndex := k, status := CursorStatus.paused,
            descriptions := (descs.take k).map (fun d => some d.1) ++
              List.replicate (ids.length - k) none,
            story := ((descs.take k).map Prod.snd).getLastD "", slides := [],
            appChat := false } =
        { imagesToAnalyze := ids, currentIndex := k, status := CursorStatus.running,
          descriptions := (descs.take k).map (fun d => some d.1) ++
            List.replicate (ids.length - k) none,
          story := ((descs.take k).map Prod.snd).getLastD "", slides := [],
          appChat := false }) ∧
    runAnalysis (startAnalysis ids)
        ((descs.map fun d => AnalysisStepOutcome.analyzeOk d.1 d.2) ++
          [AnalysisStepOutcome.failure]) =
      { imagesToAnalyze := ids, currentIndex := ids.length,
        status := CursorStatus.paused,
        descriptions := descs.map (fun d => some d.1),
        story := (descs.map Prod.snd).getLastD "", slides := [],
        appChat := false } ∧
    analysisStep
        (resumeAnalysis
          { imagesToAnalyze := ids, currentIndex := ids.length,
            status := CursorStatus.paused,
            descriptions := descs.map (fun d => some d.1),
            story := (descs.map Prod.snd).getLastD "", slides := [],
            appChat := false })
        (AnalysisStepOutcome.synthOk sl) =
      { imagesToAnalyze := [], currentIndex := 0, status := CursorStatus.done,
        descriptions := descs.map (fun d => some d.1),
        story := (descs.map Prod.snd).getLastD "", slides := sl,
        appChat := true } := by
  have htk : (descs.take k).length = k := by
    rw [List.length_take]
    omega
  have hA := runAnalysis_analyzeOk_go ids (descs.take k) 0 [] "" [] rfl
    (by rw [htk]; omega)
  rw [htk] at hA
  simp only [Nat.zero_add, List.nil_append] at hA
  have hgod := runAnalysis_analyzeOk_go ids descs 0 [] "" [] rfl (by omega)
  simp only [Nat.zero_add, List.nil_append] at hgod
  rw [hlen] at hgod
  simp only [Nat.sub_self, List.replicate_zero, List.append_nil] at hgod
  have hstart : startAnalysis ids =
      { imagesToAnalyze := ids, currentIndex := 0, status := CursorStatus.running,
        descriptions := List.replicate (ids.length - 0) none, story := "",
        slides := [], appChat := false } := rfl
  rw [← hstart] at hA hgod
  refine ⟨hA, ?_, ?_, ?_, ?_⟩
  · rw [runAnalysis_append, hgod, runAnalysis_cons, runAnalysis_nil]
    simp [analysisStep]
  · intro hklt
    refine ⟨?_, rfl⟩
    rw [runAnalysis_append, hA, runAnalysis_cons, runAnalysis_nil]
    simp [analysisStep, hklt]
  · rw [runAnalysis_append, hgod, runAnalysis_cons, runAnalysis_nil]
    simp [analysisStep]
  · simp [analysisStep, resumeAnalysis]

/-- C2 witness: a two-image run, its pause on a failure at index 1, and
its full success run to done. -/
theorem analysisCursor_run_spec_witness :
    runAnalysis (startAnalysis ["i0", "i1"])
        (([("d0", "s0"), ("d1", "s1")].take 1).map fun d =>
          AnalysisStepOutcome.analyzeOk d.1 d.2) =
      { imagesToAnalyze := ["i0", "i1"], currentIndex := 1,
        status := CursorStatus.running, descriptions := [some "d0", none],
        story := "s0", slides := [], appChat := false } ∧
    runAnalysis (startAnalysis ["i0", "i1"])
        (([("d0", "s0"), ("d1", "s1")].map fun d =>
          AnalysisStepOutcome.analyzeOk d.1 d.2) ++
          [AnalysisStepOutcome.synthOk []]) =
      { imagesToAnalyze := [], currentIndex := 0, status := CursorStatus.done,
        descriptions := [some "d0", some "d1"], story := "s1", slides := [],
        appChat := true } ∧
    runAnalysis (startAnalysis ["i0", "i1"])
        (([("d0", "s0"), ("d1", "s1")].take 1).map (fun d =>
          AnalysisStepOutcome.analyzeOk d.1 d.2) ++
          [AnalysisStepOutcome.failure]) =
      { imagesToAnalyze := ["i0", "i1"], currentIndex := 1,
        status := CursorStatus.paused, descriptions := [some "d0", none],
        story := "s0", slides := [], appChat := false } := by
  have h := analysisCursor_run_spec ["i0", "i1"] [("d0", "s0"), ("d1", "s1")] [] 1
    (by decide) (by decide)
  exact ⟨h.1, h.2.1, (h.2.2.1 (by decide)).1⟩

end PrezentAI
